import Mathlib

/-
Verification of the aiolinebot client library against its specification.

The development shallowly embeds the pure content of the source modules:

  * aiolinebot/api.py        - the asynchronous facade AioLineBotApi, its
    private verb pipelines (the methods named with a single leading
    underscore for get, post and delete), the name-mangled static method
    that classifies responses, the minimal response record it builds, and
    the streaming AioContent handle;
  * aiolinebot/http_client.py - AioHttpResponse and AioHttpClient built on
    aiohttp, including the session lifecycle of the streaming branch;
  * aiolinebot/builder.py and aiolinebot/__init__.py - the version stamping
    and the regeneration trigger.

Network transport is modelled by passing the raw reply (status, headers,
content type, body bytes, and the JSON parse of the body) explicitly to
each pipeline.  JSON parsing itself is external (the json standard library
and aiohttp); a body travels together with its parse result, where a parse
result of none means the external parser raises on that body.

The synchronous facade (the external linebot library) and the external DTO
codec are not part of this repository; where a claim needs them they are
modelled from the specification and marked as such in their doc comments.
-/

namespace Aiolinebot

/-- Minimal JSON value model for request and response bodies. -/
inductive Json where
  | null : Json
  | bool (b : Bool) : Json
  | str (s : String) : Json
  | num (n : Int) : Json
  | arr (elements : List Json) : Json
  | obj (fields : List (String × Json)) : Json
deriving Repr

/-- Lookup of a field of a JSON object, as dict.get does on a parsed body. -/
def Json.get? : Json → String → Option Json
  | Json.obj fields, key => (fields.find? (fun f => f.1 = key)).map (fun f => f.2)
  | _, _ => none

/-- String-keyed dictionary, modelling a Python dict of str to str. -/
abbrev Dict := List (String × String)

/-- Dictionary lookup: first entry with the given key. -/
def dictGet : Dict → String → Option String
  | [], _ => none
  | kv :: rest, k => if kv.1 = k then some kv.2 else dictGet rest k

/-- Single-key assignment d[k] = v of a Python dict: overwrite in place when
the key is present, append otherwise. -/
def dictSet (d : Dict) (k v : String) : Dict :=
  if d.any (fun kv => kv.1 = k) then
    d.map (fun kv => if kv.1 = k then (k, v) else kv)
  else
    d ++ [(k, v)]

/-- d.update(e) of a Python dict: assign every entry of e into d in order. -/
def dictUpdate (d e : Dict) : Dict :=
  e.foldl (fun acc kv => dictSet acc kv.1 kv.2) d

/-- The raw reply of one HTTP exchange as the transport (aiohttp) delivers
it: status, headers, the content type declared by the server, the body
bytes, and the result of parsing the body as JSON (jsonBody = none means
the body is not decodable as JSON, so the external JSON parser raises). -/
structure RawResponse where
  status : Int
  headers : Dict
  content_type : String
  body : List Nat
  jsonBody : Option Json
deriving Repr

/-- The canonical error payload shape of the platform (linebot.models.Error,
observed only through its decoded fields). -/
structure ErrorPayload where
  message : Option String
deriving Repr, DecidableEq

/-- The empty error payload: every field absent. -/
def ErrorPayload.empty : ErrorPayload := { message := none }

/-- Modelled from the spec: the decoder Error.new_from_json_dict of the
external DTO codec (linebot.models), which is not under src/.  Per the
specification the decode of the canonical error payload shape is
best-effort: fields are read from a JSON object when present, and an
absent or non-object payload yields the empty payload. -/
def Error.new_from_json_dict : Option Json → ErrorPayload
  | some (Json.obj fields) =>
      { message :=
          match (fields.find? (fun f => f.1 = "message")).map (fun f => f.2) with
          | some (Json.str s) => some s
          | _ => none }
  | _ => ErrorPayload.empty

/-- The typed API error LineBotApiError.  http_client.py raises it with
status code, headers and request id; api.py raises it with status code and
payload only (the remaining fields stay absent). -/
structure LineBotApiError where
  status_code : Int
  headers : Option Dict := none
  request_id : Option String := none
  error : ErrorPayload
deriving Repr, DecidableEq

/-- How one call can fail: the typed API error, or a propagated JSON decode
failure raised by the external parser (json.loads, or the json method of an
aiohttp response). -/
inductive CallFailure where
  | lineBotApiError (e : LineBotApiError) : CallFailure
  | jsonDecodeError : CallFailure
deriving Repr, DecidableEq

end Aiolinebot

namespace Aiolinebot

/-! ## api.py: the response record and the verb pipelines -/

/-- api.py class AioHttpResponse: response with minimum properties for the
linebot api (status code, headers, optional decoded JSON, optional raw
content bytes; both optionals default to absent). -/
structure AioHttpResponse where
  status_code : Int
  headers : Dict
  json : Option Json := none
  content : Option (List Nat) := none
deriving Repr

/-- HTTP verbs used by the client. -/
inductive Verb where
  | get : Verb
  | post : Verb
  | delete : Verb
deriving Repr, DecidableEq

/-- The request one verb pipeline hands to the transport. -/
structure TransportRequest where
  verb : Verb
  url : String
  headers : Dict
  params : Option Dict := none
  data : Option String := none
deriving Repr, DecidableEq

/-- api.py class AioLineBotApi: the state its init method sets up (the
fixed endpoint and the fixed header dict holding the bearer token and the
user agent). -/
structure AioLineBotApi where
  endpoint : String
  headers : Dict
deriving Repr, DecidableEq

/-- api.py AioLineBotApi init: store the endpoint and build the fixed
headers from the channel access token and the linebot library version. -/
def AioLineBotApi.init (channel_access_token : String)
    (endpoint : String) (linebotapi_version : String) : AioLineBotApi :=
  { endpoint := endpoint
  , headers :=
      [ ("Authorization", "Bearer " ++ channel_access_token)
      , ("User-Agent", "line-bot-sdk-python/" ++ linebotapi_version) ] }

/-- api.py name-mangled static method check error: pass when the status is
in [200, 300), otherwise decode the json field of the response into the
error payload and raise LineBotApiError with the status code and payload. -/
def AioLineBotApi.check_error (response : AioHttpResponse) :
    Except CallFailure Unit :=
  if 200 ≤ response.status_code ∧ response.status_code < 300 then
    Except.ok ()
  else
    Except.error (CallFailure.lineBotApiError
      { status_code := response.status_code
      , error := Error.new_from_json_dict response.json })

/-- api.py method _get: build the url from endpoint and path, default the
header dict to empty, merge the client headers in last, dispatch, then
normalize the reply: when the content type is exactly "application/json"
the json field is set from the parsed body (the json method of the aiohttp
reply raises when the body does not parse), otherwise the content field is
set to the body bytes read raw.  Finally classify through check error. -/
def AioLineBotApi._get (api : AioLineBotApi) (path : String)
    (params : Option Dict) (headers : Option Dict) (resp : RawResponse) :
    TransportRequest × Except CallFailure AioHttpResponse :=
  let url := api.endpoint ++ path
  let headers2 := dictUpdate (headers.getD []) api.headers
  let req : TransportRequest :=
    { verb := Verb.get, url := url, headers := headers2, params := params }
  let result : Except CallFailure AioHttpResponse :=
    if resp.content_type = "application/json" then
      match resp.jsonBody with
      | none => Except.error CallFailure.jsonDecodeError
      | some j =>
        let response : AioHttpResponse :=
          { status_code := resp.status, headers := resp.headers
          , json := some j }
        (AioLineBotApi.check_error response).map (fun _ => response)
    else
      let response : AioHttpResponse :=
        { status_code := resp.status, headers := resp.headers
        , content := some resp.body }
      (AioLineBotApi.check_error response).map (fun _ => response)
  (req, result)

/-- api.py method _post: headers default to a Content-Type of
"application/json", client headers merged in last; the reply json field is
set only when the content type is exactly "application/json"; a body of
any other content type is not read at all.  Classify through check error. -/
def AioLineBotApi._post (api : AioLineBotApi) (path : String)
    (data : Option String) (headers : Option Dict) (resp : RawResponse) :
    TransportRequest × Except CallFailure AioHttpResponse :=
  let url := api.endpoint ++ path
  let headers2 :=
    dictUpdate (headers.getD [("Content-Type", "application/json")]) api.headers
  let req : TransportRequest :=
    { verb := Verb.post, url := url, headers := headers2, data := data }
  let result : Except CallFailure AioHttpResponse :=
    if resp.content_type = "application/json" then
      match resp.jsonBody with
      | none => Except.error CallFailure.jsonDecodeError
      | some j =>
        let response : AioHttpResponse :=
          { status_code := resp.status, headers := resp.headers
          , json := some j }
        (AioLineBotApi.check_error response).map (fun _ => response)
    else
      let response : AioHttpResponse :=
        { status_code := resp.status, headers := resp.headers }
      (AioLineBotApi.check_error response).map (fun _ => response)
  (req, result)

/-- api.py method _delete: headers default to empty, client headers merged
in last; the reply json field is set only when the content type is exactly
"application/json"; a body of any other content type is not read at all.
Classify through check error. -/
def AioLineBotApi._delete (api : AioLineBotApi) (path : String)
    (data : Option String) (headers : Option Dict) (resp : RawResponse) :
    TransportRequest × Except CallFailure AioHttpResponse :=
  let url := api.endpoint ++ path
  let headers2 := dictUpdate (headers.getD []) api.headers
  let req : TransportRequest :=
    { verb := Verb.delete, url := url, headers := headers2, data := data }
  let result : Except CallFailure AioHttpResponse :=
    if resp.content_type = "application/json" then
      match resp.jsonBody with
      | none => Except.error CallFailure.jsonDecodeError
      | some j =>
        let response : AioHttpResponse :=
          { status_code := resp.status, headers := resp.headers
          , json := some j }
        (AioLineBotApi.check_error response).map (fun _ => response)
    else
      let response : AioHttpResponse :=
        { status_code := resp.status, headers := resp.headers }
      (AioLineBotApi.check_error response).map (fun _ => response)
  (req, result)

/-- A generic call through the facade pipeline of api.py, selected by verb
(each public endpoint method of the facade delegates to exactly one of the
three private verb pipelines with its own path and arguments). -/
def AioLineBotApi.call (api : AioLineBotApi) (verb : Verb) (path : String)
    (resp : RawResponse) : Except CallFailure AioHttpResponse :=
  match verb with
  | Verb.get => (api._get path none none resp).2
  | Verb.post => (api._post path none none resp).2
  | Verb.delete => (api._delete path none none resp).2

/-! ## api.py: the message-sending facade methods -/

/-- A send-message DTO of the external object model, observed only through
its as_json_dict encoding. -/
structure SendMessage where
  payload : Json

/-- as_json_dict of the external DTO codec: the JSON encoding of a message. -/
def SendMessage.as_json_dict (m : SendMessage) : Json := m.payload

/-- The messages argument of the send methods: either a lone message object
or a list of message objects (the Python code distinguishes them with an
isinstance check against list and tuple). -/
inductive MessagesArg where
  | single (m : SendMessage) : MessagesArg
  | many (ms : List SendMessage) : MessagesArg

/-- The singular-versus-list normalization each send method performs first:
a lone item becomes a one-element list, a list passes through. -/
def normalizeMessages : MessagesArg → List SendMessage
  | MessagesArg.single m => [m]
  | MessagesArg.many ms => ms

/-- What a facade method does before any network I/O: either it dispatches
a request body to a path, or it raises a validation error first.  (The
validation constructor exists to state claims about validation; which
methods actually produce it is exactly what the theorems settle.) -/
inductive FacadeAction where
  | dispatch (verb : Verb) (path : String) (body : Json) : FacadeAction
  | validationError (message : String) : FacadeAction

/-- Whether a facade action dispatches a request (rather than raising a
validation error before any network I/O). -/
def FacadeAction.isDispatch : FacadeAction → Bool
  | FacadeAction.dispatch _ _ _ => true
  | FacadeAction.validationError _ => false

/-- api.py reply_message: normalize the messages argument, build the body
dict in source order, and post it to the reply path; no validation of any
kind precedes the dispatch. -/
def AioLineBotApi.reply_message (reply_token : String) (messages : MessagesArg)
    (notification_disabled : Bool) : FacadeAction :=
  let messages2 := normalizeMessages messages
  FacadeAction.dispatch Verb.post "/v2/bot/message/reply"
    (Json.obj
      [ ("replyToken", Json.str reply_token)
      , ("messages", Json.arr (messages2.map SendMessage.as_json_dict))
      , ("notificationDisabled", Json.bool notification_disabled) ])

/-- api.py push_message: normalize the messages argument, build the body
dict in source order, and post it to the push path. -/
def AioLineBotApi.push_message (to_ : String) (messages : MessagesArg)
    (notification_disabled : Bool) : FacadeAction :=
  let messages2 := normalizeMessages messages
  FacadeAction.dispatch Verb.post "/v2/bot/message/push"
    (Json.obj
      [ ("to", Json.str to_)
      , ("messages", Json.arr (messages2.map SendMessage.as_json_dict))
      , ("notificationDisabled", Json.bool notification_disabled) ])

/-- api.py multicast: normalize the messages argument, build the body dict
in source order with the full recipient list, and post it to the multicast
path.  The method performs no check of the recipient list length (or of
anything else) before dispatching. -/
def AioLineBotApi.multicast (to_ : List String) (messages : MessagesArg)
    (notification_disabled : Bool) : FacadeAction :=
  let messages2 := normalizeMessages messages
  FacadeAction.dispatch Verb.post "/v2/bot/message/multicast"
    (Json.obj
      [ ("to", Json.arr (to_.map Json.str))
      , ("messages", Json.arr (messages2.map SendMessage.as_json_dict))
      , ("notificationDisabled", Json.bool notification_disabled) ])

/-- api.py broadcast: normalize the messages argument, build the body dict
in source order, and post it to the broadcast path. -/
def AioLineBotApi.broadcast (messages : MessagesArg)
    (notification_disabled : Bool) : FacadeAction :=
  let messages2 := normalizeMessages messages
  FacadeAction.dispatch Verb.post "/v2/bot/message/broadcast"
    (Json.obj
      [ ("messages", Json.arr (messages2.map SendMessage.as_json_dict))
      , ("notificationDisabled", Json.bool notification_disabled) ])

/-- api.py get_message_content (and get_rich_menu_image alike): the request
the streaming path sends carries exactly the fixed client headers, passed
directly to the session get call. -/
def AioLineBotApi.get_message_content_request (api : AioLineBotApi)
    (message_id : String) : TransportRequest :=
  { verb := Verb.get
  , url := api.endpoint ++ "/v2/bot/message/" ++ message_id ++ "/content"
  , headers := api.headers }

/-! ## api.py: the streaming AioContent handle -/

/-- The outcome of entering the AioContent context manager: the result and
the number of session close operations that were actually executed
(awaited) on the way. -/
structure EnterOutcome where
  result : Except CallFailure Unit
  closesAwaited : Nat
deriving Repr

/-- api.py AioContent aenter: await the response; when the status is in
[200, 300) the handle is returned with the connection left open for the
caller to read and eventually close.  Otherwise the body is decoded as
JSON (the json method of the aiohttp reply raises when the content type is
not "application/json" or the body does not parse) and LineBotApiError is
raised; the surrounding except clause awaits close once before re-raising
whatever was raised. -/
def AioContent.aenter (resp : RawResponse) : EnterOutcome :=
  if 200 ≤ resp.status ∧ resp.status < 300 then
    { result := Except.ok (), closesAwaited := 0 }
  else
    let aiohttpJson : Option Json :=
      if resp.content_type = "application/json" then resp.jsonBody else none
    match aiohttpJson with
    | some j =>
      { result := Except.error (CallFailure.lineBotApiError
          { status_code := resp.status
          , error := Error.new_from_json_dict (some j) })
      , closesAwaited := 1 }
    | none =>
      { result := Except.error CallFailure.jsonDecodeError
      , closesAwaited := 1 }

/-- api.py AioContent aexit: await close exactly once. -/
def AioContent.aexit : Nat := 1

end Aiolinebot

namespace Aiolinebot

/-! ## http_client.py: AioHttpResponse and AioHttpClient -/

/-- http_client.py class AioHttpResponse: status code, headers, the content
bytes (paired with their JSON parse result, none when json.loads raises on
them), and whether the instance holds an open session. -/
structure HttpClient.AioHttpResponse where
  status_code : Int
  headers : Dict
  content : List Nat
  contentJson : Option Json
  hasSession : Bool := false
deriving Repr

/-- http_client.py static method is_success: returns True when the status
is in [200, 300) and otherwise falls through, returning None. -/
def HttpClient.is_success (status_code : Int) : Option Bool :=
  if 200 ≤ status_code ∧ status_code < 300 then some true else none

/-- Python truthiness of an optional boolean: None is falsy. -/
def truthy : Option Bool → Bool
  | none => false
  | some b => b

/-- The outcome of the check error method of http_client.py: pass, the
typed API error, or a propagated JSON decode failure (json.loads raised
while reading the json property of the response). -/
inductive CheckOutcome where
  | ok : CheckOutcome
  | apiError (e : LineBotApiError) : CheckOutcome
  | jsonDecodeError : CheckOutcome
deriving Repr, DecidableEq

/-- Whether a check outcome is the pass outcome. -/
def CheckOutcome.isOk : CheckOutcome → Bool
  | CheckOutcome.ok => true
  | _ => false

/-- Whether a check outcome is the typed API error. -/
def CheckOutcome.isApiError : CheckOutcome → Bool
  | CheckOutcome.apiError _ => true
  | _ => false

/-- http_client.py method check_error: pass when is_success of the status
is truthy; otherwise raise LineBotApiError with the status code, the
headers, the request id header, and the error payload decoded from the
json property — where the json property is json.loads of the content, so
a content that does not parse as JSON raises the decode failure out of
check_error instead. -/
def HttpClient.check_error (r : HttpClient.AioHttpResponse) : CheckOutcome :=
  if truthy (HttpClient.is_success r.status_code) then
    CheckOutcome.ok
  else
    match r.contentJson with
    | none => CheckOutcome.jsonDecodeError
    | some j =>
      CheckOutcome.apiError
        { status_code := r.status_code
        , headers := some r.headers
        , request_id := dictGet r.headers "X-Line-Request-Id"
        , error := Error.new_from_json_dict (some j) }

/-- The observable outcome of http_client.py AioHttpClient get: the
response handed back, whether ownership of the open session transferred to
it, how many session close operations were actually executed (awaited)
inside get, and how many close coroutines were created but never awaited
(a close call without await runs no code). -/
structure GetOutcome where
  response : HttpClient.AioHttpResponse
  closesAwaited : Nat
  closesNotAwaited : Nat
deriving Repr

/-- http_client.py AioHttpClient get: in the non-streaming branch the
session is scoped by two nested context managers, so it is closed exactly
once on exit; in the streaming branch a session is created unscoped, and
on a successful status the response takes ownership of it, while on a
failing status the body is read, a session-less response is built, and
client_session.close() is called WITHOUT await — the coroutine is created
and never run, so no close is executed on that path. -/
def AioHttpClient.get (stream : Bool) (resp : RawResponse) : GetOutcome :=
  if stream = false then
    { response :=
        { status_code := resp.status, headers := resp.headers
        , content := resp.body, contentJson := resp.jsonBody }
    , closesAwaited := 1
    , closesNotAwaited := 0 }
  else
    if truthy (HttpClient.is_success resp.status) then
      { response :=
          { status_code := resp.status, headers := resp.headers
          , content := resp.body, contentJson := resp.jsonBody
          , hasSession := true }
      , closesAwaited := 0
      , closesNotAwaited := 0 }
    else
      { response :=
          { status_code := resp.status, headers := resp.headers
          , content := resp.body, contentJson := resp.jsonBody }
      , closesAwaited := 0
      , closesNotAwaited := 1 }

end Aiolinebot

namespace Aiolinebot

/-! ## builder.py and the package init: version stamping and staleness -/

/-- The api module as the package init observes it: the recorded generated
version (the LINE_BOT_API_VERSION class attribute), or none when importing
the module or reading the attribute fails (the except branch). -/
structure ApiModule where
  LINE_BOT_API_VERSION : Option String
deriving Repr, DecidableEq

/-- The staleness test the package init performs: regenerate when the
recorded generated version differs from the version declared by the
canonical linebot library, and always when no recorded version can be
read at all. -/
def needsRegeneration (recorded : Option String) (linebot_version : String) : Bool :=
  match recorded with
  | none => true
  | some generated => generated ≠ linebot_version

/-- builder.py build_class, observed at the module level: the base source
holds the constant line LINE_BOT_API_VERSION = 'LINE_BOT_API_VERSION', and
build_class replaces the quoted placeholder with the quoted version it was
given, so the module it writes records exactly that version. -/
def AioLineBotApiBuilder.build_class (version : String) : ApiModule :=
  { LINE_BOT_API_VERSION := some version }

/-- The package init import-time driver: regenerate via build_class with
the linebot library version exactly when the staleness test fires,
otherwise keep the module as imported. -/
def initRegeneration (current : ApiModule) (linebot_version : String) : ApiModule :=
  if needsRegeneration current.LINE_BOT_API_VERSION linebot_version then
    AioLineBotApiBuilder.build_class linebot_version
  else
    current

end Aiolinebot

namespace Aiolinebot

/-! ## The synchronous facade, modelled from the spec -/

/-- Modelled from the spec: the synchronous facade call pipeline.  The
synchronous client is the external linebot library LineBotApi, which is
not under src/ (only its generated asynchronous mirror is), so it is
modelled from the specification: the sync facade builds the same url from
endpoint and path, dispatches, normalizes the reply per the content-type
dispatch rule of the transport contract (decoded JSON exactly when the
declared content type is "application/json", raw bytes otherwise, with a
decode failure surfaced when a JSON body does not parse), classifies
uniformly (success exactly when 200 <= status < 300), and on failure
decodes the error payload best-effort, substituting the empty payload when
the body does not decode. -/
def SyncFacade.call (api : AioLineBotApi) (verb : Verb) (path : String)
    (resp : RawResponse) : Except CallFailure AioHttpResponse :=
  let _url := api.endpoint ++ path
  let _verb := verb
  if 200 ≤ resp.status ∧ resp.status < 300 then
    if resp.content_type = "application/json" then
      match resp.jsonBody with
      | none => Except.error CallFailure.jsonDecodeError
      | some j =>
        Except.ok
          { status_code := resp.status, headers := resp.headers
          , json := some j }
    else
      Except.ok
        { status_code := resp.status, headers := resp.headers
        , content := some resp.body }
  else
    Except.error (CallFailure.lineBotApiError
      { status_code := resp.status
      , error := Error.new_from_json_dict resp.jsonBody })

/-! ## Helper projections and concrete inputs used by the theorems -/

/-- Whether an Except result is the success case. -/
def exceptIsOk {ε α : Type} : Except ε α → Bool
  | Except.ok _ => true
  | Except.error _ => false

/-- The content field of a successful pipeline result (none when the call
raised instead of returning a response). -/
def resultContent : Except CallFailure AioHttpResponse → Option (Option (List Nat))
  | Except.ok r => some r.content
  | Except.error _ => none

/-- Whether a pipeline result is a propagated JSON decode failure. -/
def isDecodeFailure : Except CallFailure AioHttpResponse → Bool
  | Except.error CallFailure.jsonDecodeError => true
  | _ => false

/-- A concrete client, as init builds it from a token and the linebot
library version. -/
def api0 : AioLineBotApi :=
  AioLineBotApi.init "TEST_TOKEN" "https://api.line.me" "1.19.0"

/-- A concrete 200 reply declaring image/png with a four-byte body that is
not JSON (used against the POST pipeline). -/
def respPng3 : RawResponse :=
  { status := 200, headers := [], content_type := "image/png"
  , body := [137, 80, 78, 71], jsonBody := none }

/-- A concrete 200 reply declaring image/png with a four-byte body that is
not JSON (used for the POST/DELETE discard behavior). -/
def respPng9 : RawResponse :=
  { status := 200, headers := [], content_type := "image/png"
  , body := [137, 80, 78, 71], jsonBody := none }

/-- A concrete 500 reply declaring application/json whose body does not
parse as JSON. -/
def respUndecodable : RawResponse :=
  { status := 500, headers := [], content_type := "application/json"
  , body := [60], jsonBody := none }

/-- A concrete 404 reply declaring application/json with a well-formed
error body. -/
def respC1w : RawResponse :=
  { status := 404, headers := [], content_type := "application/json"
  , body := [123], jsonBody := some (Json.obj [("message", Json.str "Not found")]) }

/-- A concrete 404 reply with a JSON error body, for the streaming client. -/
def respError404 : RawResponse :=
  { status := 404, headers := [], content_type := "application/json"
  , body := [123], jsonBody := some (Json.obj [("message", Json.str "Not found")]) }

/-- A concrete http_client response: status 404 with a body that does not
parse as JSON. -/
def respBadBody : HttpClient.AioHttpResponse :=
  { status_code := 404, headers := []
  , content := [60, 104, 116, 109, 108, 62], contentJson := none }

/-- A concrete http_client response: status 404, request id header, and a
well-formed JSON error body. -/
def respJsonError404 : HttpClient.AioHttpResponse :=
  { status_code := 404, headers := [("X-Line-Request-Id", "req-1")]
  , content := [123]
  , contentJson := some (Json.obj [("message", Json.str "Not found")]) }

/-- A recipient list of 151 user ids. -/
def to151 : List String := List.replicate 151 "U"

end Aiolinebot

namespace Aiolinebot

/-! ## Dictionary lemmas -/

theorem dictSet_cons_ne (hd : String × String) (tl : Dict) (k v : String)
    (h : hd.1 ≠ k) : dictSet (hd :: tl) k v = hd :: dictSet tl k v := by
  by_cases htl : tl.any (fun kv => kv.1 = k)
  · simp [dictSet, h, htl]
  · simp [dictSet, h, htl]

theorem dictGet_set_self (d : Dict) (k v : String) :
    dictGet (dictSet d k v) k = some v := by
  induction d with
  | nil => simp [dictSet, dictGet]
  | cons hd tl ih =>
    by_cases h : hd.1 = k
    · simp [dictSet, dictGet, h]
    · rw [dictSet_cons_ne hd tl k v h]
      simp [dictGet, h]
      exact ih

theorem dictGet_map_set (tl : Dict) (k k2 v : String) (h : k2 ≠ k) :
    dictGet (tl.map (fun kv => if kv.1 = k then (k, v) else kv)) k2
      = dictGet tl k2 := by
  induction tl with
  | nil => rfl
  | cons hd tl ih =>
    by_cases hh : hd.1 = k
    · simp [dictGet, hh, Ne.symm h, ih]
    · by_cases h2 : hd.1 = k2 <;> simp [dictGet, hh, h2, h, ih]

theorem dictGet_set_ne (d : Dict) (k k2 v : String) (h : k2 ≠ k) :
    dictGet (dictSet d k v) k2 = dictGet d k2 := by
  induction d with
  | nil => simp [dictSet, dictGet, Ne.symm h]
  | cons hd tl ih =>
    by_cases hh : hd.1 = k
    · simp [dictSet, dictGet, hh, Ne.symm h, dictGet_map_set tl k k2 v h]
    · rw [dictSet_cons_ne hd tl k v hh]
      by_cases h2 : hd.1 = k2 <;> simp [dictGet, h2, ih]

theorem dictGet_update_client (d : Dict) (a u : String) :
    dictGet (dictUpdate d [("Authorization", a), ("User-Agent", u)]) "Authorization" = some a
    ∧ dictGet (dictUpdate d [("Authorization", a), ("User-Agent", u)]) "User-Agent" = some u := by
  constructor
  · show dictGet (dictSet (dictSet d "Authorization" a) "User-Agent" u) "Authorization" = some a
    rw [dictGet_set_ne _ _ _ _ (by decide), dictGet_set_self]
  · show dictGet (dictSet (dictSet d "Authorization" a) "User-Agent" u) "User-Agent" = some u
    rw [dictGet_set_self]

end Aiolinebot

namespace Aiolinebot

/-! ## Claim theorems -/

/-- C2: every classifier of the code — the static check of api.py applied
after the GET, POST and DELETE pipelines, the check_error method of
http_client.py, and the status check of the streaming AioContent handle —
treats a response as success exactly when its status s satisfies
200 <= s < 300; at the boundary, 199 and 300 raise the typed API error
while 200 and 299 pass. -/
theorem c2_classification_boundary :
    (∀ r : AioHttpResponse,
        exceptIsOk (AioLineBotApi.check_error r) = true
          ↔ (200 ≤ r.status_code ∧ r.status_code < 300))
    ∧ (∀ r : HttpClient.AioHttpResponse,
        (HttpClient.check_error r).isOk = true
          ↔ (200 ≤ r.status_code ∧ r.status_code < 300))
    ∧ (∀ resp : RawResponse,
        exceptIsOk (AioContent.aenter resp).result = true
          ↔ (200 ≤ resp.status ∧ resp.status < 300))
    ∧ AioLineBotApi.check_error { status_code := 199, headers := [] }
        = Except.error (CallFailure.lineBotApiError
            { status_code := 199, error := ErrorPayload.empty })
    ∧ AioLineBotApi.check_error { status_code := 300, headers := [] }
        = Except.error (CallFailure.lineBotApiError
            { status_code := 300, error := ErrorPayload.empty })
    ∧ AioLineBotApi.check_error { status_code := 200, headers := [] } = Except.ok ()
    ∧ AioLineBotApi.check_error { status_code := 299, headers := [] } = Except.ok () := by
  refine ⟨?_, ?_, ?_, rfl, rfl, rfl, rfl⟩
  · intro r
    by_cases h : 200 ≤ r.status_code ∧ r.status_code < 300 <;>
      simp [AioLineBotApi.check_error, exceptIsOk, h]
  · intro r
    by_cases h : 200 ≤ r.status_code ∧ r.status_code < 300
    · simp [HttpClient.check_error, HttpClient.is_success, truthy, h, CheckOutcome.isOk]
    · cases hc : r.contentJson <;>
        simp [HttpClient.check_error, HttpClient.is_success, truthy, h, hc,
          CheckOutcome.isOk]
  · intro resp
    by_cases h : 200 ≤ resp.status ∧ resp.status < 300
    · simp [AioContent.aenter, exceptIsOk, h]
    · simp only [AioContent.aenter, if_neg h]
      split <;> simp [exceptIsOk, h]

/-- C4: the package init regenerates exactly when the recorded generated
version differs from the version declared by the linebot library;
build_class records the version it is given, so after a regeneration pass
the staleness test is false for the same source version, and the driver is
idempotent in that sense. -/
theorem c4_staleness_detection :
    (∀ generated catalogVersion : String,
        needsRegeneration (some generated) catalogVersion = true
          ↔ generated ≠ catalogVersion)
    ∧ (∀ version : String,
        (AioLineBotApiBuilder.build_class version).LINE_BOT_API_VERSION = some version)
    ∧ (∀ current version,
        needsRegeneration
          (initRegeneration current version).LINE_BOT_API_VERSION version = false) := by
  refine ⟨?_, fun _ => rfl, ?_⟩
  · intro g v
    simp [needsRegeneration]
  · intro current version
    by_cases h : needsRegeneration current.LINE_BOT_API_VERSION version = true
    · unfold initRegeneration
      rw [if_pos h]
      simp [AioLineBotApiBuilder.build_class, needsRegeneration]
    · unfold initRegeneration
      rw [if_neg h]
      simpa using h

/-- C5 counterexample: multicast called with a recipient list of length
151 does not raise a validation error — it proceeds straight to
dispatching the request, refuting the claim that a list of 151 or more
recipient ids raises a ValidationError before any network I/O. -/
theorem c5_counterexample :
    to151.length = 151
    ∧ (AioLineBotApi.multicast to151 (MessagesArg.many []) false).isDispatch = true :=
  ⟨rfl, rfl⟩

/-- C5 amended: multicast performs no recipient-count validation at all —
for every recipient list (of any length) the call proceeds to dispatch the
request to the multicast path. -/
theorem c5_no_bulk_validation_amended (to_ : List String)
    (messages : MessagesArg) (notification_disabled : Bool) :
    (AioLineBotApi.multicast to_ messages notification_disabled).isDispatch = true := rfl

/-- C7: code bug in the streaming branch of AioHttpClient.get — on a
non-2xx status the source calls client_session.close() without await, so
the close coroutine is created but never executed: no session close runs
on that exit path, the returned response owns no session either, and the
connection is leaked; by contrast the non-streaming branch closes its
session exactly once.  The claim (release exactly once on every exit
path) states the clear intent, which this path violates. -/
theorem c7_streaming_error_leaks_session :
    (AioHttpClient.get true respError404).closesAwaited = 0
    ∧ (AioHttpClient.get true respError404).closesNotAwaited = 1
    ∧ (AioHttpClient.get true respError404).response.hasSession = false
    ∧ (AioHttpClient.get false respError404).closesAwaited = 1
    ∧ (AioContent.aenter respError404).closesAwaited = 1 :=
  ⟨rfl, rfl, rfl, rfl, rfl⟩

/-- C8: for each message-sending facade method, a lone message object and
the one-element list holding it normalize to the same message sequence and
hence build identical request bodies and identical dispatches. -/
theorem c8_singleton_normalization (m : SendMessage)
    (reply_token to_ : String) (to_list : List String) (nd : Bool) :
    AioLineBotApi.reply_message reply_token (MessagesArg.single m) nd
      = AioLineBotApi.reply_message reply_token (MessagesArg.many [m]) nd
    ∧ AioLineBotApi.push_message to_ (MessagesArg.single m) nd
      = AioLineBotApi.push_message to_ (MessagesArg.many [m]) nd
    ∧ AioLineBotApi.multicast to_list (MessagesArg.single m) nd
      = AioLineBotApi.multicast to_list (MessagesArg.many [m]) nd
    ∧ AioLineBotApi.broadcast (MessagesArg.single m) nd
      = AioLineBotApi.broadcast (MessagesArg.many [m]) nd :=
  ⟨rfl, rfl, rfl, rfl⟩

end Aiolinebot

namespace Aiolinebot

/-- C1 counterexample: on a 500 reply declaring application/json whose
body does not parse as JSON, the asynchronous pipeline of api.py raises
the propagated JSON decode failure, while the synchronous facade contract
(modelled from the spec, with its best-effort error decode) raises the
typed API error with the raw status and the empty payload — so the two
facades do not produce identical error classifications on every identical
transport response. -/
theorem c1_counterexample :
    AioLineBotApi.call api0 Verb.get "/v2/bot/profile/U1" respUndecodable
      = Except.error CallFailure.jsonDecodeError
    ∧ SyncFacade.call api0 Verb.get "/v2/bot/profile/U1" respUndecodable
      = Except.error (CallFailure.lineBotApiError
          { status_code := 500, error := ErrorPayload.empty })
    ∧ AioLineBotApi.call api0 Verb.get "/v2/bot/profile/U1" respUndecodable
      ≠ SyncFacade.call api0 Verb.get "/v2/bot/profile/U1" respUndecodable := by
  refine ⟨rfl, rfl, fun h => ?_⟩
  exact Bool.noConfusion (congrArg isDecodeFailure h)

/-- C1 amended: for every verb pipeline, every path, and every transport
response whose declared content type is exactly "application/json" and
whose body parses as JSON, the asynchronous pipeline of api.py and the
synchronous facade contract produce identical results — the same decoded
response on success and the same typed API error (same status, same
decoded payload) on failure.  The facade methods themselves are generated
textually from the synchronous source by builder.py, so argument handling
and path construction are shared; the divergence the counterexample
exhibits is confined to replies that violate the hypothesis. -/
theorem c1_parity_amended (api : AioLineBotApi) (verb : Verb) (path : String)
    (resp : RawResponse) (j : Json)
    (hct : resp.content_type = "application/json")
    (hparse : resp.jsonBody = some j) :
    AioLineBotApi.call api verb path resp = SyncFacade.call api verb path resp := by
  cases verb <;>
  · simp only [AioLineBotApi.call, AioLineBotApi._get, AioLineBotApi._post,
      AioLineBotApi._delete, SyncFacade.call, hct, hparse, if_pos]
    by_cases h : 200 ≤ resp.status ∧ resp.status < 300 <;>
      simp [AioLineBotApi.check_error, h, hparse, Except.map]

/-- C1 amended witness at a concrete input: a 404 reply with a JSON error
body satisfies the hypotheses, and both facades classify it identically. -/
theorem c1_parity_amended_witness :
    respC1w.content_type = "application/json"
    ∧ respC1w.jsonBody = some (Json.obj [("message", Json.str "Not found")])
    ∧ AioLineBotApi.call api0 Verb.get "/v2/bot/profile/U1" respC1w
        = SyncFacade.call api0 Verb.get "/v2/bot/profile/U1" respC1w :=
  ⟨rfl, rfl,
    c1_parity_amended api0 Verb.get "/v2/bot/profile/U1" respC1w
      (Json.obj [("message", Json.str "Not found")]) rfl rfl⟩

/-- C3 counterexample: a 200 reply declaring image/png with a four-byte
body, sent through the POST pipeline, comes back with its content field
absent — the body is not exposed as raw bytes of equal length (nor as
JSON), refuting the claim for every HTTP response received. -/
theorem c3_counterexample :
    resultContent ((api0._post "/v2/bot/richmenu" none none respPng3).2) = some none
    ∧ resultContent ((api0._post "/v2/bot/richmenu" none none respPng3).2)
        ≠ some (some respPng3.body) := by
  refine ⟨rfl, fun h => ?_⟩
  rw [show resultContent ((api0._post "/v2/bot/richmenu" none none respPng3).2)
      = some none from rfl] at h
  simp at h

/-- C3 amended: the content-type dispatch rule holds for responses
received via the GET pipeline — the body is exposed as decoded JSON
exactly when the declared content type is "application/json", and for any
other content type it is exposed as the raw bytes sent (hence of equal
length); for the POST and DELETE pipelines the JSON side holds but a body
of any other content type is discarded, exposed neither as JSON nor as
bytes. -/
theorem c3_content_type_dispatch_amended (api : AioLineBotApi) (path : String)
    (params : Option Dict) (data : Option String) (headers : Option Dict)
    (resp : RawResponse)
    (h2xx : 200 ≤ resp.status ∧ resp.status < 300) :
    (∀ j, resp.content_type = "application/json" → resp.jsonBody = some j →
        (api._get path params headers resp).2
          = Except.ok { status_code := resp.status, headers := resp.headers
                      , json := some j, content := none })
    ∧ (resp.content_type ≠ "application/json" →
        (api._get path params headers resp).2
          = Except.ok { status_code := resp.status, headers := resp.headers
                      , json := none, content := some resp.body })
    ∧ (resp.content_type ≠ "application/json" →
        (api._post path data headers resp).2
          = Except.ok { status_code := resp.status, headers := resp.headers
                      , json := none, content := none }
        ∧ (api._delete path data headers resp).2
          = Except.ok { status_code := resp.status, headers := resp.headers
                      , json := none, content := none }) := by
  refine ⟨?_, ?_, ?_⟩
  · intro j hct hparse
    simp [AioLineBotApi._get, AioLineBotApi.check_error, hct, hparse, h2xx, Except.map]
  · intro hct
    simp [AioLineBotApi._get, AioLineBotApi.check_error, hct, h2xx, Except.map]
  · intro hct
    constructor
    · simp [AioLineBotApi._post, AioLineBotApi.check_error, hct, h2xx, Except.map]
    · simp [AioLineBotApi._delete, AioLineBotApi.check_error, hct, h2xx, Except.map]

/-- C3 amended witness at concrete inputs: the 200 image/png reply is in
range, its content type is not "application/json", and the GET pipeline
exposes its body as the raw bytes while the POST pipeline discards it. -/
theorem c3_amended_witness :
    (200 ≤ respPng3.status ∧ respPng3.status < 300)
    ∧ (api0._get "/v2/bot/message/M1/content" none none respPng3).2
        = Except.ok { status_code := 200, headers := []
                    , json := none, content := some [137, 80, 78, 71] }
    ∧ (api0._post "/v2/bot/richmenu" none none respPng3).2
        = Except.ok { status_code := 200, headers := []
                    , json := none, content := none } :=
  ⟨by decide,
    (c3_content_type_dispatch_amended api0 "/v2/bot/message/M1/content" none none none
      respPng3 (by decide)).2.1 (by decide),
    ((c3_content_type_dispatch_amended api0 "/v2/bot/richmenu" none none none
      respPng3 (by decide)).2.2 (by decide)).1⟩

/-- C6 counterexample: a 404 response whose body does not parse as JSON
makes check_error of http_client.py raise the JSON decode failure out of
the classifier (json.loads raises while reading the json property) — the
typed API error with raw status and empty payload is not raised, refuting
the best-effort clause of the claim. -/
theorem c6_counterexample :
    HttpClient.check_error respBadBody = CheckOutcome.jsonDecodeError
    ∧ (HttpClient.check_error respBadBody).isApiError = false :=
  ⟨rfl, rfl⟩

/-- C6 amended: for every response with a non-2xx status the classifier
never reports success; when the body parses as JSON it raises the typed
API error carrying the raw status code, the headers, the request id
header, and the decoded payload; when the body fails to parse the decode
failure propagates instead of a typed API error; and on the api.py path,
where a body of non-JSON content type leaves the json field absent, the
classifier still raises the typed API error with the raw status code and
the empty payload. -/
theorem c6_error_classifier_amended (r : HttpClient.AioHttpResponse)
    (h : ¬ (200 ≤ r.status_code ∧ r.status_code < 300)) :
    (HttpClient.check_error r).isOk = false
    ∧ (∀ j, r.contentJson = some j →
        HttpClient.check_error r = CheckOutcome.apiError
          { status_code := r.status_code
          , headers := some r.headers
          , request_id := dictGet r.headers "X-Line-Request-Id"
          , error := Error.new_from_json_dict (some j) })
    ∧ (r.contentJson = none →
        HttpClient.check_error r = CheckOutcome.jsonDecodeError)
    ∧ (∀ hdrs : Dict,
        AioLineBotApi.check_error { status_code := r.status_code, headers := hdrs }
          = Except.error (CallFailure.lineBotApiError
              { status_code := r.status_code, error := ErrorPayload.empty })) := by
  refine ⟨?_, ?_, ?_, ?_⟩
  · cases hc : r.contentJson <;>
      simp [HttpClient.check_error, HttpClient.is_success, truthy, h, hc,
        CheckOutcome.isOk]
  · intro j hc
    simp [HttpClient.check_error, HttpClient.is_success, truthy, h, hc]
  · intro hc
    simp [HttpClient.check_error, HttpClient.is_success, truthy, h, hc]
  · intro hdrs
    simp [AioLineBotApi.check_error, h, Error.new_from_json_dict]

/-- C6 amended witness at a concrete input: a 404 response with a JSON
error body and a request id header is classified as the typed API error
with the decoded payload. -/
theorem c6_amended_witness :
    ¬ (200 ≤ respJsonError404.status_code ∧ respJsonError404.status_code < 300)
    ∧ HttpClient.check_error respJsonError404
        = CheckOutcome.apiError
            { status_code := 404
            , headers := some [("X-Line-Request-Id", "req-1")]
            , request_id := some "req-1"
            , error := { message := some "Not found" } } :=
  ⟨by decide,
    (c6_error_classifier_amended respJsonError404 (by decide)).2.1
      (Json.obj [("message", Json.str "Not found")]) rfl⟩

/-- C9: for every POST or DELETE pipeline call whose reply declares a
content type other than "application/json" and returns in range, the
normalized response handed back has both its json field and its content
field absent — the non-JSON body is silently discarded — while the GET
pipeline stores the same body as raw bytes. -/
theorem c9_post_delete_discard (api : AioLineBotApi) (path : String)
    (data : Option String) (headers : Option Dict) (resp : RawResponse)
    (hct : resp.content_type ≠ "application/json")
    (h2xx : 200 ≤ resp.status ∧ resp.status < 300) :
    (api._post path data headers resp).2
      = Except.ok { status_code := resp.status, headers := resp.headers
                  , json := none, content := none }
    ∧ (api._delete path data headers resp).2
      = Except.ok { status_code := resp.status, headers := resp.headers
                  , json := none, content := none }
    ∧ (api._get path none headers resp).2
      = Except.ok { status_code := resp.status, headers := resp.headers
                  , json := none, content := some resp.body } := by
  refine ⟨?_, ?_, ?_⟩
  · simp [AioLineBotApi._post, AioLineBotApi.check_error, hct, h2xx, Except.map]
  · simp [AioLineBotApi._delete, AioLineBotApi.check_error, hct, h2xx, Except.map]
  · simp [AioLineBotApi._get, AioLineBotApi.check_error, hct, h2xx, Except.map]

/-- C9 witness at a concrete input: the 200 image/png reply satisfies the
hypotheses, and the POST pipeline returns a response with both fields
absent. -/
theorem c9_witness :
    respPng9.content_type ≠ "application/json"
    ∧ (200 ≤ respPng9.status ∧ respPng9.status < 300)
    ∧ (api0._post "/v2/bot/richmenu" none none respPng9).2
        = Except.ok { status_code := 200, headers := []
                    , json := none, content := none } :=
  ⟨by decide, by decide,
    (c9_post_delete_discard api0 "/v2/bot/richmenu" none none respPng9
      (by decide) (by decide)).1⟩

/-- C10: every request dispatched by the verb pipelines and by the
streaming content path carries the fixed Authorization bearer token and
User-Agent headers set at construction, whatever per-call header dict the
caller supplies — the client headers are merged into the per-call dict
last, so they can never be overridden. -/
theorem c10_auth_headers (token ep ver path message_id : String)
    (params : Option Dict) (data : Option String) (callerHeaders : Option Dict)
    (resp : RawResponse) :
    dictGet ((AioLineBotApi.init token ep ver)._get path params callerHeaders resp).1.headers
        "Authorization" = some ("Bearer " ++ token)
    ∧ dictGet ((AioLineBotApi.init token ep ver)._get path params callerHeaders resp).1.headers
        "User-Agent" = some ("line-bot-sdk-python/" ++ ver)
    ∧ dictGet ((AioLineBotApi.init token ep ver)._post path data callerHeaders resp).1.headers
        "Authorization" = some ("Bearer " ++ token)
    ∧ dictGet ((AioLineBotApi.init token ep ver)._post path data callerHeaders resp).1.headers
        "User-Agent" = some ("line-bot-sdk-python/" ++ ver)
    ∧ dictGet ((AioLineBotApi.init token ep ver)._delete path data callerHeaders resp).1.headers
        "Authorization" = some ("Bearer " ++ token)
    ∧ dictGet ((AioLineBotApi.init token ep ver)._delete path data callerHeaders resp).1.headers
        "User-Agent" = some ("line-bot-sdk-python/" ++ ver)
    ∧ dictGet ((AioLineBotApi.init token ep ver).get_message_content_request message_id).headers
        "Authorization" = some ("Bearer " ++ token)
    ∧ dictGet ((AioLineBotApi.init token ep ver).get_message_content_request message_id).headers
        "User-Agent" = some ("line-bot-sdk-python/" ++ ver) := by
  refine ⟨?_, ?_, ?_, ?_, ?_, ?_, ?_, ?_⟩
  · exact (dictGet_update_client _ _ _).1
  · exact (dictGet_update_client _ _ _).2
  · exact (dictGet_update_client _ _ _).1
  · exact (dictGet_update_client _ _ _).2
  · exact (dictGet_update_client _ _ _).1
  · exact (dictGet_update_client _ _ _).2
  · simp [AioLineBotApi.get_message_content_request, AioLineBotApi.init, dictGet]
  · simp [AioLineBotApi.get_message_content_request, AioLineBotApi.init, dictGet]

end Aiolinebot
